import Mathlib

/-! incubator-devlake: API service start-up and the Tapd worklog collector

A shallow embedding of

* `backend/server/api/api.go` (`CreateApiService`, `bootstrapRemotePlugins`), and
* `backend/plugins/tapd/tasks/worklog_collector.go` (`CollectWorklogs`),

together with the parts of the Go standard library (`strconv.Atoi`,
`strings.TrimLeft`, `url.Values.Set`, `time.Time.In`, `time.Time.Format`) and of
the gin router (`New`, `RouterGroup.Use`, `RouterGroup.handle`,
`Engine.handleHTTPRequest` with its trailing-slash redirect, `Context.Next`,
`Context.Abort`) that the two files rely on.
-/

set_option autoImplicit false

namespace Devlake

deriving instance DecidableEq for Except

/-! ## strconv -/

namespace strconv

/-- The two sentinel errors of package strconv. -/
inductive Sentinel where
  | ErrSyntax
  | ErrRange
  deriving DecidableEq, Repr

/-- Go's `strconv.NumError`: the failing function, the input, the reason. -/
structure NumError where
  Func : String
  Num : String
  Err : Sentinel
  deriving DecidableEq, Repr

/-- Size of Go's `int` in bits on the platforms devlake is built for. -/
def intSize : Nat := 64

/-- Byte test `'0' <= c && c <= '9'`. -/
def isDigit (c : Char) : Bool := decide (48 ≤ c.toNat ∧ c.toNat ≤ 57)

/-- Go's `lower(c)`, that is `c | ('x' - 'X')`. -/
def lower (c : Char) : Nat := c.toNat ||| 32

/-- The digit loop of the fast path of `Atoi`: `ch -= '0'; if ch > 9` fails,
otherwise `n = n*10 + int(ch)`. `none` is the syntax error. -/
def fastLoop : List Char → Nat → Option Nat
  | [], n => some n
  | ch :: rest, n => if isDigit ch then fastLoop rest (n * 10 + (ch.toNat - 48)) else none

/-- The digit loop of `ParseUint(s, 10, 64)`. The result is the pair
Go returns: the value and the error, if any. -/
def parseUintLoop : List Char → Nat → Nat × Option Sentinel
  | [], n => (n, none)
  | c :: rest, n =>
    if isDigit c then
      -- d = c - '0' < base
      if n ≥ (2 ^ 64 - 1) / 10 + 1 then (2 ^ 64 - 1, some .ErrRange)
      else
        let n1 := n * 10 + (c.toNat - 48)
        if n1 > 2 ^ 64 - 1 then (2 ^ 64 - 1, some .ErrRange)
        else parseUintLoop rest n1
    else if 97 ≤ lower c ∧ lower c ≤ 122 then
      -- d = lower(c) - 'a' + 10 >= base
      (0, some .ErrSyntax)
    else (0, some .ErrSyntax)

/-- Go's `ParseUint(s, 10, 0)` on the bytes of `s`. -/
def ParseUint (s : List Char) : Nat × Option Sentinel :=
  match s with
  | [] => (0, some .ErrSyntax)
  | _ => parseUintLoop s 0

/-- Go's `ParseInt(s, 10, 0)`: sign, `ParseUint`, then the range check against
`cutoff = 1 << 63`. -/
def ParseInt (s : List Char) : Except Sentinel Int :=
  match s with
  | [] => .error .ErrSyntax
  | c :: rest =>
    let neg := c == '-'
    let body := if c == '+' then rest else if c == '-' then rest else s
    match ParseUint body with
    | (_, some .ErrSyntax) => .error .ErrSyntax
    | (un, _) =>
      let cutoff : Nat := 2 ^ (intSize - 1)
      if !neg && decide (un ≥ cutoff) then .error .ErrRange
      else if neg && decide (un > cutoff) then .error .ErrRange
      else .ok (if neg then - (un : Int) else (un : Int))

/-- Go's `strconv.Atoi`. -/
def Atoi (s : String) : Except NumError Int :=
  let sLen := s.utf8ByteSize
  if 0 < sLen ∧ sLen < 19 then
    -- fast path for small integers that fit the int type
    match s.data with
    | [] => .error ⟨"Atoi", s, .ErrSyntax⟩
    | c :: rest =>
      let body := if c == '-' || c == '+' then rest else c :: rest
      if body.length < 1 then .error ⟨"Atoi", s, .ErrSyntax⟩
      else
        match fastLoop body 0 with
        | none => .error ⟨"Atoi", s, .ErrSyntax⟩
        | some n => .ok (if c == '-' then - (n : Int) else (n : Int))
  else
    -- slow path for invalid, big, or underscored integers
    match ParseInt s.data with
    | .error e => .error ⟨"Atoi", s, e⟩
    | .ok i => .ok i

end strconv

/-! ## strings -/

namespace strings

/-- Go's `strings.TrimLeft(s, cutset)`: `s` without its leading characters that
occur in `cutset`. -/
def TrimLeft (s cutset : String) : String :=
  ⟨s.data.dropWhile (fun c => cutset.data.contains c)⟩

end strings

/-! ## fmt -/

namespace fmt

/-- Decimal digits of a natural number, most significant first. -/
def digits : Nat → Nat → List Char
  | 0, _ => []
  | fuel + 1, n =>
    if n < 10 then [Char.ofNat (48 + n)]
    else digits fuel (n / 10) ++ [Char.ofNat (48 + n % 10)]

/-- The rendering of an unsigned integer by the verbs `%v` and `%d`. -/
def formatUint (n : Nat) : String := ⟨digits (n + 1) n⟩

/-- The rendering of a signed integer by the verbs `%v` and `%d`. -/
def formatInt (i : Int) : String :=
  if i < 0 then "-" ++ formatUint i.natAbs else formatUint i.natAbs

end fmt

/-! ## devlake errors -/

/-- The values of devlake's `errors.Error` that the two files build or pass on.
`raw` stands for an error made by code outside the two files. -/
inductive Error where
  | raw (message : String)
  /-- Value of `errors.HttpStatus(code).New(message)`. -/
  | httpStatusNew (code : Nat) (message : String)
  /-- Value of `errors.Default.Wrap(cause, message)`. -/
  | defaultWrap (cause : Error) (message : String)
  deriving DecidableEq, Repr

/-! ## gin -/

namespace gin

/-- What was done to the request that an observer can see: the calls of
`shared.ApiOutputSuccess` and `shared.ApiOutputError` on the context, the
calls of `services.ExecuteMigration`, and the redirect gin itself writes for
a trailing slash (`http.Redirect(c.Writer, req, location, code)`). -/
inductive Effect where
  | ApiOutputSuccess (body : Option String) (status : Nat)
  | ApiOutputError (err : Error)
  | ExecuteMigration
  | Redirect (code : Nat) (location : String)
  deriving DecidableEq, Repr

/-- The mutable part of a `gin.Context`, with the process-wide state `world`
threaded through it. `index` is gin's `int8` position in the handler chain;
`invoked` lists the names of the handlers that were called, in order. -/
structure Context (σ : Type) where
  index : Int
  effects : List Effect
  invoked : List String
  world : σ
  deriving DecidableEq, Repr

/-- gin's `abortIndex`, `math.MaxInt8 >> 1`. -/
def abortIndex : Int := 63

/-- gin's `Context.Abort`. -/
def Context.Abort {σ : Type} (c : Context σ) : Context σ :=
  { c with index := abortIndex }

/-- gin's `Context.IsAborted`. -/
def Context.IsAborted {σ : Type} (c : Context σ) : Bool :=
  decide (c.index ≥ abortIndex)

/-- The body of a handler: either it never calls `c.Next()`, or it calls it
once between two pieces of its own code. -/
inductive Body (σ : Type) where
  | leaf (f : Context σ → Context σ)
  | around (before after : Context σ → Context σ)

/-- A `gin.HandlerFunc` with the name gin prints for it. -/
structure HandlerFunc (σ : Type) where
  name : String
  body : Body σ

/-- The loop of gin's `Context.Next`,
`for c.index < int8(len(c.handlers)) { c.handlers[c.index](c); c.index++ }`,
with a bound on the number of nested iterations; `none` means the bound was
reached before the loop ended. A handler that calls `c.Next()` increments the
index and runs the same loop. -/
def nextLoop {σ : Type} (handlers : List (HandlerFunc σ)) : Nat → Context σ → Option (Context σ)
  | 0, _ => none
  | fuel + 1, c =>
    if 0 ≤ c.index ∧ c.index < (handlers.length : Int) then
      match handlers.get? c.index.toNat with
      | none => none
      | some h =>
        let c1 := { c with invoked := c.invoked ++ [h.name] }
        let r :=
          match h.body with
          | .leaf f => some (f c1)
          | .around before after =>
            let c3 := before c1
            (nextLoop handlers fuel { c3 with index := c3.index + 1 }).map after
        match r with
        | none => none
        | some c2 => nextLoop handlers fuel { c2 with index := c2.index + 1 }
    else some c

/-- gin's `Context.Next`: `c.index++` and then the loop. -/
def Next {σ : Type} (handlers : List (HandlerFunc σ)) (fuel : Nat) (c : Context σ) :
    Option (Context σ) :=
  nextLoop handlers fuel { c with index := c.index + 1 }

/-- A registered route: method, full path and the handler chain fixed when the
route was registered. -/
structure Route (σ : Type) where
  method : String
  path : String
  handlers : List (HandlerFunc σ)

/-- The parts of `gin.Engine` used here: the root group's `Handlers`, the
registered routes (`trees`), the chain for unmatched requests, and the
setting `RedirectTrailingSlash`. -/
structure Engine (σ : Type) where
  Handlers : List (HandlerFunc σ)
  trees : List (Route σ)
  allNoRoute : List (HandlerFunc σ)
  RedirectTrailingSlash : Bool

/-- gin's `New`, which turns `RedirectTrailingSlash` on (`RedirectFixedPath`
and `HandleMethodNotAllowed` stay off). -/
def New {σ : Type} : Engine σ := ⟨[], [], [], true⟩

/-- gin's `RouterGroup.combineHandlers`: the group's handlers followed by the
given ones. gin asserts `finalSize < abortIndex` and panics otherwise (`none`). -/
def Engine.combineHandlers {σ : Type} (e : Engine σ) (hs : List (HandlerFunc σ)) :
    Option (List (HandlerFunc σ)) :=
  if ((e.Handlers.length + hs.length : Nat) : Int) < abortIndex then some (e.Handlers ++ hs)
  else none

/-- gin's `Engine.Use`: append to the group's handlers, then rebuild the chain
for unmatched requests (no `NoRoute` handler is installed). -/
def Engine.Use {σ : Type} (e : Engine σ) (middleware : List (HandlerFunc σ)) :
    Option (Engine σ) :=
  let e1 := { e with Handlers := e.Handlers ++ middleware }
  match e1.combineHandlers [] with
  | none => none
  | some all => some { e1 with allNoRoute := all }

/-- gin's `Default`: `New` with the Logger and Recovery middleware. Both run
`c.Next()` between their own code, which touches nothing modelled here. -/
def Logger {σ : Type} : HandlerFunc σ := ⟨"gin.Logger", .around id id⟩

/-- gin's `Recovery` middleware. -/
def Recovery {σ : Type} : HandlerFunc σ := ⟨"gin.Recovery", .around id id⟩

/-- gin's `Default`. -/
def Default {σ : Type} : Option (Engine σ) := (New : Engine σ).Use [Logger, Recovery]

/-- Route lookup. A request is given by its method and the full path of the
route it resolves to. -/
def Engine.lookup {σ : Type} (e : Engine σ) (method path : String) : Option (Route σ) :=
  e.trees.find? (fun r => r.method == method && r.path == path)

/-- gin's `RouterGroup.handle`: the chain is combined now, from the handlers
the group has at this moment; registering a method and path twice panics. -/
def Engine.handle {σ : Type} (e : Engine σ) (method path : String)
    (hs : List (HandlerFunc σ)) : Option (Engine σ) :=
  match e.combineHandlers hs with
  | none => none
  | some chain =>
    match e.lookup method path with
    | some _ => none
    | none => some { e with trees := e.trees ++ [⟨method, path, chain⟩] }

/-- gin's `RouterGroup.GET`. -/
def Engine.GET {σ : Type} (e : Engine σ) (path : String) (hs : List (HandlerFunc σ)) :
    Option (Engine σ) := e.handle "GET" path hs

/-- gin's `RouterGroup.POST`. -/
def Engine.POST {σ : Type} (e : Engine σ) (path : String) (hs : List (HandlerFunc σ)) :
    Option (Engine σ) := e.handle "POST" path hs

/-- An inbound request: method and path. For a request that matches a
route, `path` is the full path of that route (the request path itself for a
route without parameters). `tsr` is the trailing-slash recommendation
`value.tsr` that gin's route tree gives for a path that matches no route
because of a parameter or catch-all route (`GET /swagger` next to
`/swagger/*any`). -/
structure Request where
  method : String
  path : String
  tsr : Bool
  deriving DecidableEq, Repr

/-- The target of gin's `redirectTrailingSlash`: the path without its
trailing slash when it has one (and is longer than "/"), else with one added. -/
def toggleSlash (path : String) : String :=
  if 1 < path.data.length ∧ path.data.getLast? = some '/' then ⟨path.data.dropLast⟩
  else path ++ "/"

/-- Whether gin's route tree recommends a trailing-slash redirect for a
request that matches no route: a route of the same method is registered
under the path with the slash toggled, or the tree says so for a parameter or
catch-all route. -/
def Engine.tsr {σ : Type} (e : Engine σ) (req : Request) : Bool :=
  (e.lookup req.method (toggleSlash req.path)).isSome || req.tsr

/-- Whether `handleHTTPRequest` answers the request with the trailing-slash
redirect: no route matches, the method is not CONNECT, the path is not "/",
and `value.tsr && engine.RedirectTrailingSlash`. -/
def Engine.redirects {σ : Type} (e : Engine σ) (req : Request) : Bool :=
  (e.lookup req.method req.path).isNone &&
    (req.method != "CONNECT" && req.path != "/" && (e.tsr req && e.RedirectTrailingSlash))

/-- Go's `http.StatusMovedPermanently`. -/
def StatusMovedPermanently : Nat := 301

/-- Go's `http.StatusTemporaryRedirect`. -/
def StatusTemporaryRedirect : Nat := 307

/-- gin's `redirectTrailingSlash` followed by `redirectRequest`: 301 for GET
and 307 for any other method, to the path with the slash toggled. No handler
is run. -/
def redirectTrailingSlash {σ : Type} (c : Context σ) (req : Request) : Context σ :=
  let code := if req.method != "GET" then StatusTemporaryRedirect else StatusMovedPermanently
  { c with effects := c.effects ++ [Effect.Redirect code (toggleSlash req.path)] }

/-- gin's `Engine.handleHTTPRequest` on a fresh context (`index = -1`): the
chain of the matching route; else the trailing-slash redirect when the tree
recommends one; else the chain for unmatched requests. -/
def Engine.handleHTTPRequest {σ : Type} (e : Engine σ) (fuel : Nat) (req : Request) (world : σ) :
    Option (Context σ) :=
  let c : Context σ := ⟨-1, [], [], world⟩
  match e.lookup req.method req.path with
  | some r => Next r.handlers fuel c
  | none =>
    if req.method != "CONNECT" && req.path != "/" && (e.tsr req && e.RedirectTrailingSlash) then
      some (redirectTrailingSlash c req)
    else Next e.allNoRoute fuel c

/-- gin's `c.index++`. -/
def Context.incr {σ : Type} (c : Context σ) : Context σ := { c with index := c.index + 1 }

/-- Record that the handler called `name` is being invoked. -/
def Context.enter {σ : Type} (c : Context σ) (name : String) : Context σ :=
  { c with invoked := c.invoked ++ [name] }

end gin

/-! ## backend/server/api/api.go -/

namespace api

open gin

/-- The constant `DB_MIGRATION_REQUIRED`. -/
def DB_MIGRATION_REQUIRED : String :=
  "\nNew migration scripts detected. Database migration is required to launch DevLake.\nWARNING: Performing migration may wipe collected data for consistency and re-collecting data may be required.\nTo proceed, please send a request to <config-ui-endpoint>/api/proceed-db-migration (or <devlake-endpoint>/proceed-db-migration).\nAlternatively, you may downgrade back to the previous DevLake version.\n"

/-- Go's `http.StatusOK`. -/
def StatusOK : Nat := 200

/-- Go's `http.StatusPreconditionRequired`. -/
def StatusPreconditionRequired : Nat := 428

/-- The configuration values the file reads: `v.GetString("MODE")`,
`v.GetBool("ENABLE_REMOTE_PLUGINS")` and `v.GetString("PORT")`. -/
structure Config where
  MODE : String
  ENABLE_REMOTE_PLUGINS : Bool
  PORT : String
  deriving DecidableEq, Repr

/-- The two functions of package `services` that the file calls, over the
process-wide state `σ`. -/
structure Services (σ : Type) where
  MigrationRequireConfirmation : σ → Bool
  ExecuteMigration : σ → σ × Option Error

/-- Call of `shared.ApiOutputSuccess(ctx, body, status)`. -/
def ApiOutputSuccess {σ : Type} (ctx : Context σ) (body : Option String) (status : Nat) :
    Context σ :=
  { ctx with effects := ctx.effects ++ [Effect.ApiOutputSuccess body status] }

/-- Call of `shared.ApiOutputError(ctx, err)`. -/
def ApiOutputError {σ : Type} (ctx : Context σ) (err : Error) : Context σ :=
  { ctx with effects := ctx.effects ++ [Effect.ApiOutputError err] }

/-- The handler of `GET /proceed-db-migration` (lines 66-77). -/
def proceedDbMigration {σ : Type} (services : Services σ) (ctx : Context σ) : Context σ :=
  if !services.MigrationRequireConfirmation ctx.world then
    ApiOutputSuccess ctx none StatusOK
  else
    let r := services.ExecuteMigration ctx.world
    let ctx := { ctx with world := r.1, effects := ctx.effects ++ [Effect.ExecuteMigration] }
    match r.2 with
    | some err => ApiOutputError ctx (Error.defaultWrap err "error executing migration")
    | none => ApiOutputSuccess ctx none StatusOK

/-- The middleware installed by `router.Use` at lines 78-87. -/
def migrationGate {σ : Type} (services : Services σ) (ctx : Context σ) : Context σ :=
  if !services.MigrationRequireConfirmation ctx.world then
    ctx
  else
    (ApiOutputError ctx
      (Error.httpStatusNew StatusPreconditionRequired DB_MIGRATION_REQUIRED)).Abort

/-- The handler of `GET /proceed-db-migration` as a gin handler. -/
def proceedDbMigrationHandler {σ : Type} (services : Services σ) : HandlerFunc σ :=
  ⟨"api.CreateApiService.func1", .leaf (proceedDbMigration services)⟩

/-- The gate as a gin handler. -/
def migrationGateHandler {σ : Type} (services : Services σ) : HandlerFunc σ :=
  ⟨"api.CreateApiService.func2", .leaf (migrationGate services)⟩

/-- What `CreateApiService` takes from outside the file: package `services`,
the handler made by `remote.RegisterPlugin`, the swagger handler, the CORS
middleware, the routes that `RegisterRouter` adds with `router.Handle`, and
`bridge.Bootstrap`. -/
structure Env (σ : Type) where
  services : Services σ
  RegisterPlugin : HandlerFunc σ
  swaggerHandler : HandlerFunc σ
  cors : HandlerFunc σ
  RegisterRouter : List (Route σ)
  Bootstrap : Config → Int → Option Error

/-- The calls `router.Handle(method, path, handlers...)` made by `RegisterRouter`. -/
def registerRoutes {σ : Type} : List (Route σ) → Engine σ → Option (Engine σ)
  | [], e => some e
  | r :: rest, e =>
    match e.handle r.method r.path r.handlers with
    | none => none
    | some e1 => registerRoutes rest e1

/-- Lines 60-106 of `CreateApiService`: the router, in the order the source
builds it. `none` is a panic inside gin. -/
def CreateApiService.router {σ : Type} (env : Env σ) (v : Config) : Option (Engine σ) :=
  (Default : Option (Engine σ)).bind fun router =>
  let remotePluginsEnabled := v.ENABLE_REMOTE_PLUGINS
  (if remotePluginsEnabled = true then router.POST "/plugins/register" [env.RegisterPlugin]
    else some router).bind fun router =>
  (router.GET "/proceed-db-migration" [proceedDbMigrationHandler env.services]).bind fun router =>
  (router.Use [migrationGateHandler env.services]).bind fun router =>
  (router.GET "/swagger/*any" [env.swaggerHandler]).bind fun router =>
  (router.Use [env.cors]).bind fun router =>
  registerRoutes env.RegisterRouter router

/-- A value passed to `panic`. -/
inductive PanicValue where
  /-- Value of `fmt.Errorf("PORT [%s] must be int: %s", port, err.Error())`. -/
  | portMustBeInt (port : String) (err : strconv.NumError)
  /-- A panic raised inside gin while the router is built. -/
  | ginPanic
  deriving DecidableEq, Repr

/-- How `bootstrapRemotePlugins` ends: it returns, having made the listed
calls of `logruslog.Global.Error`, or it panics. -/
inductive BootstrapOutcome where
  | returned (logged : List Error)
  | panicked (p : PanicValue)
  deriving DecidableEq, Repr

/-- Lines 123-128 of `bootstrapRemotePlugins`: the port number it computes. -/
def bootstrapRemotePlugins.portNum (v : Config) : Except PanicValue Int :=
  let port := v.PORT
  let port := strings.TrimLeft port ":"
  match strconv.Atoi port with
  | .error err => .error (.portMustBeInt port err)
  | .ok portNum => .ok portNum

/-- The function `bootstrapRemotePlugins`. -/
def bootstrapRemotePlugins (Bootstrap : Config → Int → Option Error) (v : Config) :
    BootstrapOutcome :=
  match bootstrapRemotePlugins.portNum v with
  | .error p => .panicked p
  | .ok portNum =>
    match Bootstrap v portNum with
    | some err => .returned [err]
    | none => .returned []

/-- Lines 107-114 of `CreateApiService`: the port number the router listens on. -/
def CreateApiService.portNum (v : Config) : Except PanicValue Int :=
  let port := v.PORT
  match strconv.Atoi port with
  | .error err => .error (.portMustBeInt port err)
  | .ok portNum => .ok portNum

/-- What `CreateApiService` has done when it reaches `router.Run`. -/
structure Serving (σ : Type) where
  router : Engine σ
  /-- Whether `go bootstrapRemotePlugins(v)` was issued. -/
  bootstrap : Option BootstrapOutcome
  /-- The address given to `router.Run`. -/
  addr : String

/-- The function `CreateApiService`, up to the call of `router.Run`. -/
def CreateApiService {σ : Type} (env : Env σ) (v : Config) : Except PanicValue (Serving σ) :=
  match CreateApiService.router env v with
  | none => .error .ginPanic
  | some router =>
    let bootstrap :=
      if v.ENABLE_REMOTE_PLUGINS then some (bootstrapRemotePlugins env.Bootstrap v) else none
    match CreateApiService.portNum v with
    | .error p => .error p
    | .ok portNum => .ok ⟨router, bootstrap, "0.0.0.0:" ++ fmt.formatInt portNum⟩

/-- Example services over a one-flag state: the flag says whether a migration
awaits confirmation, and `ExecuteMigration` clears it. -/
def demoServices : Services Bool := ⟨fun pending => pending, fun _ => (false, none)⟩

/-- Example services whose migration fails and leaves the flag set. -/
def failingServices : Services Bool :=
  ⟨fun pending => pending, fun pending => (pending, some (Error.raw "migration failed"))⟩

/-- Example environment: every outside handler answers 200 with its own name,
and `RegisterRouter` adds `GET /pipelines`. -/
def demoEnv (services : Services Bool) : Env Bool where
  services := services
  RegisterPlugin :=
    ⟨"remote.RegisterPlugin", .leaf (fun c => ApiOutputSuccess c (some "registered") StatusOK)⟩
  swaggerHandler := ⟨"ginSwagger.WrapHandler", .leaf (fun c => ApiOutputSuccess c (some "swagger") StatusOK)⟩
  cors := ⟨"cors.New", .leaf id⟩
  RegisterRouter :=
    [⟨"GET", "/pipelines",
      [⟨"pipelines.Index", .leaf (fun c => ApiOutputSuccess c (some "pipelines") StatusOK)⟩]⟩]
  Bootstrap := fun _ _ => some (Error.raw "no launcher")

/-- Example configuration with remote plugins enabled. -/
def demoConfig : Config := ⟨"release", true, "8080"⟩

/-- The router `CreateApiService` builds for `demoEnv` and `demoConfig`. -/
def demoRouter (services : Services Bool) : Engine Bool :=
  let env := demoEnv services
  ⟨[Logger, Recovery, migrationGateHandler services, env.cors],
   [⟨"POST", "/plugins/register", [Logger, Recovery, env.RegisterPlugin]⟩,
    ⟨"GET", "/proceed-db-migration", [Logger, Recovery, proceedDbMigrationHandler services]⟩,
    ⟨"GET", "/swagger/*any", [Logger, Recovery, migrationGateHandler services, env.swaggerHandler]⟩,
    ⟨"GET", "/pipelines",
      [Logger, Recovery, migrationGateHandler services, env.cors] ++
        [⟨"pipelines.Index", .leaf (fun c => ApiOutputSuccess c (some "pipelines") StatusOK)⟩]⟩],
   [Logger, Recovery, migrationGateHandler services, env.cors],
   true⟩

end api

/-! ## time -/

namespace time

/-- Go's `*time.Location`, as far as formatting needs it: the name and the
offset east of UTC, in seconds, in force at a given Unix time. -/
structure Location where
  name : String
  lookup : Int → Int

/-- Go's `time.Time`: the instant as Unix seconds and nanoseconds, and the
location the value carries. -/
structure Time where
  sec : Int
  nsec : Nat
  loc : Location

/-- Go's `Time.In`: the same instant with the location replaced; a nil
location panics (`none`). -/
def Time.In (t : Time) (loc : Option Location) : Option Time :=
  match loc with
  | none => none
  | some l => some { t with loc := l }

/-- Year, month and day of the day that lies `days` days after 1970-01-01, in
the proleptic Gregorian calendar that Go's `Time.Date` uses. -/
def civil (days : Int) : Int × Int × Int :=
  let z := days + 719468
  let era := z / 146097
  let doe := z - era * 146097
  let yoe := (doe - doe / 1460 + doe / 36524 - doe / 146096) / 365
  let doy := doe - (365 * yoe + yoe / 4 - yoe / 100)
  let mp := (5 * doy + 2) / 153
  let d := doy - (153 * mp + 2) / 5 + 1
  let m := if mp < 10 then mp + 3 else mp - 9
  let y := yoe + era * 400 + (if m ≤ 2 then 1 else 0)
  (y, m, d)

/-- Go's `Time.Date`: the date of the instant on the wall clock of the
value's location. -/
def Time.Date (t : Time) : Int × Int × Int :=
  civil ((t.sec + t.loc.lookup t.sec) / 86400)

/-- Go's `appendInt(b, x, width)`: a minus sign for a negative `x`, then the
decimal digits of its magnitude padded with zeros to `width`. -/
def appendInt (x : Int) (width : Nat) : String :=
  let ds := (fmt.formatUint x.natAbs).data
  let padded := List.replicate (width - ds.length) '0' ++ ds
  ⟨if x < 0 then '-' :: padded else padded⟩

/-- Go's `t.Format("2006-01-02")`. -/
def Time.Format_2006_01_02 (t : Time) : String :=
  let ymd := t.Date
  appendInt ymd.1 4 ++ "-" ++ appendInt ymd.2.1 2 ++ "-" ++ appendInt ymd.2.2 2

end time

/-! ## net/url -/

namespace url

/-- Go's `url.Values`, a map from a key to its list of values, kept as a list
of entries with distinct keys. -/
abbrev Values := List (String × List String)

/-- Go's `Values.Set`: `v[key] = []string{value}`. -/
def Values.Set (v : Values) (key value : String) : Values :=
  v.filter (fun kv => kv.1 != key) ++ [(key, [value])]

/-- The map access `v[key]`, `none` when the key is absent. -/
def Values.lookup (v : Values) (key : String) : Option (List String) :=
  (v.find? (fun kv => kv.1 == key)).map (fun kv => kv.2)

/-- The keys of the map. -/
def Values.keys (v : Values) : List String := v.map (fun kv => kv.1)

end url

/-! ## backend/plugins/tapd/tasks/worklog_collector.go -/

namespace tasks

open time url

/-- The constant `RAW_WORKLOG_TABLE`. -/
def RAW_WORKLOG_TABLE : String := "tapd_api_worklogs"

/-- The fields of `TapdOptions` that the collector reads. -/
structure TapdOptions where
  WorkspaceId : Nat
  CstZone : Option Location

/-- The fields of `TapdTaskData` that the collector reads. -/
structure TapdTaskData where
  Options : TapdOptions
  TimeAfter : Option Time

/-- The field of `models.CollectorLatestState` that the collector reads. -/
structure CollectorLatestState where
  LatestSuccessStart : Option Time

/-- The value `helper.NewStatefulApiCollector` returns, as far as the
collector reads it. -/
structure ApiCollectorStateManager where
  LatestState : CollectorLatestState

/-- The pager of `helper.RequestData`. -/
structure Pager where
  Page : Int
  Size : Int
  Skip : Int
  deriving DecidableEq, Repr

/-- The field of `helper.RequestData` that the collector reads. -/
structure RequestData where
  Pager : Pager
  deriving DecidableEq, Repr

/-- The `Query` callback built at lines 47-64, with the variables it closes
over as arguments. `none` is a panic: `Time.In` on a nil zone, or the
dereference of a nil `LatestSuccessStart`. -/
def CollectWorklogs.Query (data : TapdTaskData) (incremental : Bool)
    (collectorWithState : ApiCollectorStateManager) (reqData : RequestData) : Option Values :=
  let query : Values := []
  let query := query.Set "workspace_id" (fmt.formatUint data.Options.WorkspaceId)
  let query := query.Set "page" (fmt.formatInt reqData.Pager.Page)
  let query := query.Set "limit" (fmt.formatInt reqData.Pager.Size)
  let query := query.Set "order" "created asc"
  let afterTimeAfter : Option Values :=
    match data.TimeAfter with
    | some timeAfter =>
      (timeAfter.In data.Options.CstZone).map
        (fun t => query.Set "modified" (">" ++ t.Format_2006_01_02))
    | none => some query
  match afterTimeAfter with
  | none => none
  | some query =>
    if incremental then
      match collectorWithState.LatestState.LatestSuccessStart with
      | none => none
      | some latestSuccessStart =>
        (latestSuccessStart.In data.Options.CstZone).map
          (fun t => query.Set "modified" (">" ++ t.Format_2006_01_02))
    else some query

/-- The arguments `CollectWorklogs` gives to `InitCollector`, without the API
client and the response parser. -/
structure ApiCollectorArgs where
  Incremental : Bool
  PageSize : Nat
  UrlTemplate : String
  Query : RequestData → Option Values

/-- A call that `CollectWorklogs` makes, in the order of the trace. -/
inductive Call where
  | LoggerInfo (message : String)
  | LoggerError (err : Error) (message : String)
  | NewStatefulApiCollector (table : String)
  | IsIncremental
  | InitCollector
  | Execute
  deriving DecidableEq, Repr

/-- What `CollectWorklogs` takes from outside the file, over the state `ω` of
the task (database included): `CreateRawDataSubTaskArgs` gives the task data,
and the three methods of the stateful collector act on the state. -/
structure Helper (ω : Type) where
  taskData : ω → TapdTaskData
  NewStatefulApiCollector : String → Option Time → ω → ω × Except Error ApiCollectorStateManager
  IsIncremental : ApiCollectorStateManager → ω → Bool
  InitCollector : ApiCollectorStateManager → ApiCollectorArgs → ω → ω × Option Error
  Execute : ApiCollectorStateManager → ω → ω × Option Error

/-- What a run of `CollectWorklogs` leaves: the state, the calls made and the
returned error (`none` is nil). -/
structure Run (ω : Type) where
  state : ω
  calls : List Call
  err : Option Error

/-- The function `CollectWorklogs`. -/
def CollectWorklogs {ω : Type} (helper : Helper ω) (taskCtx : ω) : Run ω :=
  let data := helper.taskData taskCtx
  let calls := [Call.LoggerInfo "collect worklogs", Call.NewStatefulApiCollector RAW_WORKLOG_TABLE]
  match helper.NewStatefulApiCollector RAW_WORKLOG_TABLE data.TimeAfter taskCtx with
  | (s1, .error err) => ⟨s1, calls, some err⟩
  | (s1, .ok collectorWithState) =>
    let incremental := helper.IsIncremental collectorWithState s1
    let calls := calls ++ [Call.IsIncremental, Call.InitCollector]
    let args : ApiCollectorArgs :=
      { Incremental := incremental
        PageSize := 100
        UrlTemplate := "timesheets"
        Query := CollectWorklogs.Query data incremental collectorWithState }
    match helper.InitCollector collectorWithState args s1 with
    | (s2, some err) => ⟨s2, calls ++ [Call.LoggerError err "collect worklog error"], some err⟩
    | (s2, none) =>
      let r := helper.Execute collectorWithState s2
      ⟨r.1, calls ++ [Call.Execute], r.2⟩

/-- Example zone: China Standard Time, UTC+8 throughout. -/
def cst : Location := ⟨"Asia/Shanghai", fun _ => 28800⟩

/-- Example zone: UTC. -/
def utc : Location := ⟨"UTC", fun _ => 0⟩

/-- Example task data: workspace 42, zone CST, `timeAfter` 2024-01-01T00:00:00Z. -/
def demoData : TapdTaskData := ⟨⟨42, some cst⟩, some ⟨1704067200, 0, utc⟩⟩

/-- Example collector state: checkpoint 2024-03-10T00:00:00Z. -/
def demoCheckpoint : ApiCollectorStateManager := ⟨⟨some ⟨1710028800, 0, utc⟩⟩⟩

/-- Example collector state without a checkpoint. -/
def noCheckpoint : ApiCollectorStateManager := ⟨⟨none⟩⟩

/-- Example page request: page 3 of size 100. -/
def demoRequest : RequestData := ⟨⟨3, 100, 200⟩⟩

/-- Example task state: the stored checkpoint (a Unix time) and whether the
database can be reached. -/
structure DemoState where
  checkpoint : Option Int
  dbUp : Bool
  deriving DecidableEq, Repr

/-- Example helper: creating the collector fails when the database is down,
and `Execute` commits the checkpoint 1710028800. -/
def demoHelper : Helper DemoState where
  taskData := fun _ => demoData
  NewStatefulApiCollector := fun _ _ s =>
    if s.dbUp then (s, .ok ⟨⟨s.checkpoint.map (fun c => ⟨c, 0, utc⟩)⟩⟩)
    else (s, .error (Error.raw "failed to load JiraLatestCollectorMeta"))
  IsIncremental := fun c _ => c.LatestState.LatestSuccessStart.isSome
  InitCollector := fun _ _ s => (s, none)
  Execute := fun _ s => ({ s with checkpoint := some 1710028800 }, none)

end tasks

/-! ## Theorems -/

namespace strconv

theorem Atoi_colon (cs : List Char) :
    Atoi ⟨':' :: cs⟩ = .error ⟨"Atoi", ⟨':' :: cs⟩, .ErrSyntax⟩ := by
  have hd : isDigit ':' = false := by decide
  have h1 : ((':' : Char) == '-' || (':' : Char) == '+') = false := by decide
  have h2 : ((':' : Char) == '+') = false := by decide
  have h3 : ((':' : Char) == '-') = false := by decide
  unfold Atoi
  dsimp only
  split
  · simp [h1, fastLoop, hd]
  · simp [ParseInt, h2, h3, ParseUint, parseUintLoop, hd]

end strconv

namespace strings

theorem TrimLeft_colon_of_Atoi (s : String) (n : Int) (h : strconv.Atoi s = .ok n) :
    TrimLeft s ":" = s := by
  obtain ⟨l⟩ := s
  cases l with
  | nil => rfl
  | cons c cs =>
    by_cases hc : c = ':'
    · subst hc
      rw [strconv.Atoi_colon] at h
      cases h
    · simp [TrimLeft, List.dropWhile, hc]

end strings

namespace gin

variable {σ : Type}

theorem nextLoop_exit (handlers : List (HandlerFunc σ)) (fuel : Nat) (c : Context σ)
    (h : (handlers.length : Int) ≤ c.index) : nextLoop handlers (fuel + 1) c = some c := by
  unfold nextLoop
  rw [if_neg]
  omega

theorem nextLoop_leaf (handlers : List (HandlerFunc σ)) (fuel i : Nat) (c : Context σ)
    (name : String) (f : Context σ → Context σ)
    (hget : handlers.get? i = some ⟨name, .leaf f⟩) (hi : c.index = (i : Int)) :
    nextLoop handlers (fuel + 1) c = nextLoop handlers fuel (f (c.enter name)).incr := by
  have hlt : i < handlers.length := by
    rcases Nat.lt_or_ge i handlers.length with h | h
    · exact h
    · rw [List.get?_eq_none.mpr h] at hget; cases hget
  rw [nextLoop, if_pos (by omega)]
  have : c.index.toNat = i := by omega
  rw [this, hget]
  rfl

theorem nextLoop_around (handlers : List (HandlerFunc σ)) (fuel i : Nat) (c : Context σ)
    (name : String) (before after : Context σ → Context σ)
    (hget : handlers.get? i = some ⟨name, .around before after⟩) (hi : c.index = (i : Int)) :
    nextLoop handlers (fuel + 1) c =
      ((nextLoop handlers fuel (before (c.enter name)).incr).map after).bind
        (fun c2 => nextLoop handlers fuel c2.incr) := by
  have hlt : i < handlers.length := by
    rcases Nat.lt_or_ge i handlers.length with h | h
    · exact h
    · rw [List.get?_eq_none.mpr h] at hget; cases hget
  rw [nextLoop, if_pos (by omega)]
  have : c.index.toNat = i := by omega
  rw [this, hget]
  simp only [Context.incr, Context.enter]
  cases (nextLoop handlers fuel _) <;> rfl

end gin

namespace api
open gin
variable {σ : Type}

/-- A chain that starts with Logger, Recovery and the gate, run while a migration awaits confirmation. -/
theorem Next_gated (services : Services σ) (rest : List (HandlerFunc σ)) (fuel : Nat) (w : σ)
    (hlen : rest.length + 3 < 63)
    (hreq : services.MigrationRequireConfirmation w = true) :
    Next (Logger :: Recovery :: migrationGateHandler services :: rest) (fuel + 4) ⟨-1, [], [], w⟩ =
      some ⟨66, [Effect.ApiOutputError
          (Error.httpStatusNew StatusPreconditionRequired DB_MIGRATION_REQUIRED)],
        ["gin.Logger", "gin.Recovery", "api.CreateApiService.func2"], w⟩ := by
  have hx : ∀ (k : Nat) (c : Context σ), (63 : Int) ≤ c.index →
      nextLoop (Logger :: Recovery :: migrationGateHandler services :: rest) (k + 1) c = some c := by
    intro k c hc
    apply nextLoop_exit
    simp only [List.length_cons]
    omega
  unfold Next
  rw [nextLoop_around (Logger :: Recovery :: migrationGateHandler services :: rest)
    (fuel + 3) 0 _ "gin.Logger" id id rfl rfl]
  rw [nextLoop_around (Logger :: Recovery :: migrationGateHandler services :: rest)
    (fuel + 2) 1 _ "gin.Recovery" id id rfl rfl]
  rw [nextLoop_leaf (Logger :: Recovery :: migrationGateHandler services :: rest)
    (fuel + 1) 2 _ "api.CreateApiService.func2" (migrationGate services) rfl rfl]
  simp only [migrationGate, Context.enter, Context.incr, hreq, id, ApiOutputError, Context.Abort,
    abortIndex]
  rw [hx fuel _ (by simp)]
  simp only [Option.map, Option.bind]
  rw [hx (fuel + 1) _ (by simp)]
  simp only [Option.map, Option.bind]
  rw [hx (fuel + 2) _ (by simp)]
  simp

theorem Next_proceed (services : Services σ) (fuel : Nat) (w : σ) :
    Next [Logger, Recovery, proceedDbMigrationHandler services] (fuel + 4) ⟨-1, [], [], w⟩ =
      some { proceedDbMigration services
              ⟨2, [], ["gin.Logger", "gin.Recovery", "api.CreateApiService.func1"], w⟩ with
             index := 5 } := by
  have hx : ∀ (k : Nat) (c : Context σ), (3 : Int) ≤ c.index →
      nextLoop [Logger, Recovery, proceedDbMigrationHandler services] (k + 1) c = some c := by
    intro k c hc
    apply nextLoop_exit
    simpa using hc
  have hidx : ∀ c : Context σ, (proceedDbMigration services c).index = c.index := by
    intro c
    unfold proceedDbMigration
    split
    · rfl
    · dsimp only
      split <;> rfl
  unfold Next
  rw [nextLoop_around [Logger, Recovery, proceedDbMigrationHandler services]
    (fuel + 3) 0 _ "gin.Logger" id id rfl rfl]
  rw [nextLoop_around [Logger, Recovery, proceedDbMigrationHandler services]
    (fuel + 2) 1 _ "gin.Recovery" id id rfl rfl]
  rw [nextLoop_leaf [Logger, Recovery, proceedDbMigrationHandler services]
    (fuel + 1) 2 _ "api.CreateApiService.func1" (proceedDbMigration services) rfl rfl]
  simp only [Context.enter, Context.incr, id]
  rw [hx fuel _ (by simp [hidx])]
  simp only [Option.map, Option.bind]
  rw [hx (fuel + 1) _ (by simp [hidx])]
  simp only [Option.map, Option.bind]
  rw [hx (fuel + 2) _ (by simp [hidx])]
  simp [hidx]

theorem handle_spec (e e' : Engine σ) (m p : String) (hs : List (HandlerFunc σ))
    (h : e.handle m p hs = some e') :
    e' = ⟨e.Handlers, e.trees ++ [⟨m, p, e.Handlers ++ hs⟩], e.allNoRoute,
      e.RedirectTrailingSlash⟩ ∧
    e.Handlers.length + hs.length < 63 := by
  unfold Engine.handle Engine.combineHandlers abortIndex at h
  by_cases hlt : ((e.Handlers.length + hs.length : Nat) : Int) < 63
  · rw [if_pos hlt] at h
    dsimp only at h
    cases hl : e.lookup m p with
    | some r => rw [hl] at h; cases h
    | none =>
      rw [hl] at h
      injection h with h
      exact ⟨h.symm, by exact_mod_cast hlt⟩
  · rw [if_neg hlt] at h
    cases h

theorem Use_spec (e e' : Engine σ) (ms : List (HandlerFunc σ)) (h : e.Use ms = some e') :
    e' = ⟨e.Handlers ++ ms, e.trees, e.Handlers ++ ms, e.RedirectTrailingSlash⟩ := by
  unfold Engine.Use Engine.combineHandlers abortIndex at h
  dsimp only at h
  split at h
  · cases h
  · rename_i all hall
    split at hall
    · injection hall with hall
      injection h with h
      rw [← h, ← hall]
      simp
    · cases hall

theorem registerRoutes_spec : ∀ (rr : List (Route σ)) (e e' : Engine σ),
    registerRoutes rr e = some e' →
    e'.Handlers = e.Handlers ∧ e'.allNoRoute = e.allNoRoute ∧
    e'.trees = e.trees ++ rr.map (fun r => ⟨r.method, r.path, e.Handlers ++ r.handlers⟩) ∧
    ∀ r ∈ rr, e.Handlers.length + r.handlers.length < 63 := by
  intro rr
  induction rr with
  | nil =>
    intro e e' h
    change some e = some e' at h
    injection h with h
    subst h
    simp
  | cons r rest ih =>
    intro e e' h
    change (match e.handle r.method r.path r.handlers with
      | none => none
      | some e1 => registerRoutes rest e1) = some e' at h
    cases hh : e.handle r.method r.path r.handlers with
    | none => rw [hh] at h; cases h
    | some e1 =>
      rw [hh] at h
      obtain ⟨h1, h2, h3, h4⟩ := ih e1 e' h
      obtain ⟨he1, hlen⟩ := handle_spec e e1 _ _ _ hh
      subst he1
      refine ⟨h1, h2, ?_, ?_⟩
      · rw [h3]; simp
      · intro r' hr'
        rcases List.mem_cons.mp hr' with rfl | hm
        · exact hlen
        · exact h4 r' hm

/-- The routes and chains of the router that `CreateApiService` builds. -/
theorem router_spec (env : Env σ) (v : Config) (e : Engine σ)
    (h : CreateApiService.router env v = some e) :
    e.allNoRoute = [Logger, Recovery, migrationGateHandler env.services, env.cors] ∧
    e.trees =
      (if v.ENABLE_REMOTE_PLUGINS = true then
        [⟨"POST", "/plugins/register", [Logger, Recovery, env.RegisterPlugin]⟩] else []) ++
      [⟨"GET", "/proceed-db-migration",
          [Logger, Recovery, proceedDbMigrationHandler env.services]⟩,
       ⟨"GET", "/swagger/*any",
          [Logger, Recovery, migrationGateHandler env.services, env.swaggerHandler]⟩] ++
      env.RegisterRouter.map (fun r => ⟨r.method, r.path,
          [Logger, Recovery, migrationGateHandler env.services, env.cors] ++ r.handlers⟩) ∧
    ∀ r ∈ env.RegisterRouter, r.handlers.length + 4 < 63 := by
  unfold CreateApiService.router at h
  simp only [Option.bind_eq_some] at h
  obtain ⟨r0, h0, r1, h1, r2, h2, r3, h3, r4, h4, r5, h5, h6⟩ := h
  have e0 := Use_spec _ _ _ h0
  have e2 := (handle_spec _ _ _ _ _ h2).1
  have e3 := Use_spec _ _ _ h3
  have e4 := (handle_spec _ _ _ _ _ h4).1
  have e5 := Use_spec _ _ _ h5
  obtain ⟨g1, g2, g3, g4⟩ := registerRoutes_spec _ _ _ h6
  have e1 : r1 = ⟨[Logger, Recovery], (if v.ENABLE_REMOTE_PLUGINS = true then
        [⟨"POST", "/plugins/register", [Logger, Recovery, env.RegisterPlugin]⟩] else []),
        [Logger, Recovery], true⟩ := by
    by_cases hv : v.ENABLE_REMOTE_PLUGINS = true
    · rw [if_pos hv] at h1
      have := (handle_spec _ _ _ _ _ h1).1
      rw [this, e0, if_pos hv]
      rfl
    · rw [if_neg hv] at h1
      injection h1 with h1
      rw [← h1, e0, if_neg hv]
      rfl
  subst e1
  subst e2
  subst e3
  subst e4
  subst e5
  simp only [List.append_assoc, List.cons_append, List.nil_append] at g1 g2 g3 g4 ⊢
  refine ⟨g2, ?_, ?_⟩
  · rw [g3]
  · intro r hr
    have := g4 r hr
    simp only [List.length_cons, List.length_nil] at this
    omega

theorem demoRouter_built (services : Services Bool) :
    CreateApiService.router (demoEnv services) demoConfig = some (demoRouter services) := by
  rfl

/-- C1, as the code has it: while a migration awaits confirmation, a request that gin does
not answer with its trailing-slash redirect and whose route is neither
`GET /proceed-db-migration` nor (with remote plugins enabled) `POST /plugins/register`
is answered by the gate with status 428 and `DB_MIGRATION_REQUIRED`, the chain is aborted
(index 66, past `abortIndex`), and only Logger, Recovery and the gate were invoked. -/
theorem gate_rejects_routes_registered_after_it (env : Env σ) (v : Config) (e : Engine σ)
    (req : Request) (w : σ) (fuel : Nat)
    (hbuild : CreateApiService.router env v = some e)
    (hpending : env.services.MigrationRequireConfirmation w = true)
    (hproceed : ¬ (req.method = "GET" ∧ req.path = "/proceed-db-migration"))
    (hregister : v.ENABLE_REMOTE_PLUGINS = true →
      ¬ (req.method = "POST" ∧ req.path = "/plugins/register"))
    (hredirect : e.redirects req = false)
    (hfuel : 4 ≤ fuel) :
    e.handleHTTPRequest fuel req w =
      some ⟨66,
        [Effect.ApiOutputError (Error.httpStatusNew StatusPreconditionRequired DB_MIGRATION_REQUIRED)],
        ["gin.Logger", "gin.Recovery", "api.CreateApiService.func2"], w⟩ := by
  obtain ⟨k, rfl⟩ : ∃ k, fuel = k + 4 := ⟨fuel - 4, by omega⟩
  obtain ⟨hno, htrees, hlen⟩ := router_spec env v e hbuild
  unfold Engine.handleHTTPRequest
  dsimp only
  cases hl : e.lookup req.method req.path with
  | none =>
    dsimp only
    unfold Engine.redirects at hredirect
    rw [hl] at hredirect
    simp only [Option.isNone_none, Bool.true_and] at hredirect
    rw [hredirect, hno]
    exact Next_gated env.services [env.cors] k w (by simp) hpending
  | some r =>
    dsimp only
    unfold Engine.lookup at hl
    have hmem := List.mem_of_find?_eq_some hl
    have hkey := List.find?_some hl
    simp only [Bool.and_eq_true, beq_iff_eq] at hkey
    rw [htrees] at hmem
    simp only [List.mem_append, List.mem_cons, List.mem_map, List.mem_singleton] at hmem
    rcases hmem with (hm | hm | hm) | hm
    · by_cases hv : v.ENABLE_REMOTE_PLUGINS = true
      · rw [if_pos hv] at hm
        simp only [List.mem_singleton] at hm
        subst hm
        exact absurd ⟨hkey.1.symm, hkey.2.symm⟩ (hregister hv)
      · rw [if_neg hv] at hm
        cases hm
    · subst hm
      exact absurd ⟨hkey.1.symm, hkey.2.symm⟩ hproceed
    · rcases hm with hm | hm
      · subst hm
        exact Next_gated env.services [env.swaggerHandler] k w (by simp) hpending
      · cases hm
    · obtain ⟨r', hr', rfl⟩ := hm
      have := hlen r' hr'
      exact Next_gated env.services (env.cors :: r'.handlers) k w
        (by simp only [List.length_cons]; omega) hpending

theorem gate_rejects_routes_registered_after_it_witness :
    (demoRouter demoServices).handleHTTPRequest 4 ⟨"GET", "/pipelines", false⟩ true =
      some ⟨66,
        [Effect.ApiOutputError (Error.httpStatusNew StatusPreconditionRequired DB_MIGRATION_REQUIRED)],
        ["gin.Logger", "gin.Recovery", "api.CreateApiService.func2"], true⟩ :=
  gate_rejects_routes_registered_after_it (demoEnv demoServices) demoConfig
    (demoRouter demoServices) ⟨"GET", "/pipelines", false⟩ true 4 (demoRouter_built demoServices)
    rfl (by decide) (fun _ => by decide) (by decide) (by decide)

/-- C1, counterexample: with `ENABLE_REMOTE_PLUGINS = true` and a migration awaiting
confirmation, `POST /plugins/register` is not the confirmation endpoint, yet its handler
runs and answers; the gate is not invoked and nothing is aborted. -/
theorem register_route_bypasses_gate :
    (demoEnv demoServices).services.MigrationRequireConfirmation true = true ∧
    (⟨"POST", "/plugins/register", false⟩ : Request) ≠ ⟨"GET", "/proceed-db-migration", false⟩ ∧
    (CreateApiService.router (demoEnv demoServices) demoConfig).bind
        (fun e => e.handleHTTPRequest 8 ⟨"POST", "/plugins/register", false⟩ true) =
      some ⟨5, [Effect.ApiOutputSuccess (some "registered") 200],
        ["gin.Logger", "gin.Recovery", "remote.RegisterPlugin"], true⟩ := by
  refine ⟨rfl, by decide, ?_⟩
  decide

/-- The trailing-slash redirect runs no handler: while a migration awaits confirmation,
`GET /pipelines/` is answered 301 to `/pipelines`, `POST /plugins/register/` 307, and
`GET /swagger` (recommended by the tree for the catch-all route) 301 to `/swagger/`. -/
theorem trailing_slash_redirect_runs_no_handler :
    (demoRouter demoServices).handleHTTPRequest 8 ⟨"GET", "/pipelines/", false⟩ true =
      some ⟨-1, [Effect.Redirect 301 "/pipelines"], [], true⟩ ∧
    (demoRouter demoServices).handleHTTPRequest 8 ⟨"POST", "/plugins/register/", false⟩ true =
      some ⟨-1, [Effect.Redirect 307 "/plugins/register"], [], true⟩ ∧
    (demoRouter demoServices).handleHTTPRequest 8 ⟨"GET", "/swagger", true⟩ true =
      some ⟨-1, [Effect.Redirect 301 "/swagger/"], [], true⟩ := by
  decide

/-- C2: in the router `CreateApiService` builds, `GET /proceed-db-migration` runs Logger,
Recovery and its own handler only (never the gate). With no migration pending it answers
success 200 and does not call `ExecuteMigration`; otherwise it calls `ExecuteMigration`
once and answers success 200 when that returns nil, and the error wrapped as
"error executing migration" when it returns an error. -/
theorem proceed_db_migration_exempt_and_idempotent (env : Env σ) (v : Config) (e : Engine σ)
    (w : σ) (fuel : Nat) (tsr : Bool)
    (hbuild : CreateApiService.router env v = some e) (hfuel : 4 ≤ fuel) :
    e.handleHTTPRequest fuel ⟨"GET", "/proceed-db-migration", tsr⟩ w =
      some
        (if env.services.MigrationRequireConfirmation w = false then
          ⟨5, [Effect.ApiOutputSuccess none 200],
            ["gin.Logger", "gin.Recovery", "api.CreateApiService.func1"], w⟩
        else
          match (env.services.ExecuteMigration w).2 with
          | none =>
            ⟨5, [Effect.ExecuteMigration, Effect.ApiOutputSuccess none 200],
              ["gin.Logger", "gin.Recovery", "api.CreateApiService.func1"],
              (env.services.ExecuteMigration w).1⟩
          | some err =>
            ⟨5, [Effect.ExecuteMigration,
                Effect.ApiOutputError (Error.defaultWrap err "error executing migration")],
              ["gin.Logger", "gin.Recovery", "api.CreateApiService.func1"],
              (env.services.ExecuteMigration w).1⟩) := by
  obtain ⟨k, rfl⟩ : ∃ k, fuel = k + 4 := ⟨fuel - 4, by omega⟩
  obtain ⟨-, htrees, -⟩ := router_spec env v e hbuild
  have hl : e.lookup "GET" "/proceed-db-migration" =
      some ⟨"GET", "/proceed-db-migration",
        [Logger, Recovery, proceedDbMigrationHandler env.services]⟩ := by
    unfold Engine.lookup
    rw [htrees]
    by_cases hv : v.ENABLE_REMOTE_PLUGINS = true
    · rw [if_pos hv]
      simp [List.find?]
    · rw [if_neg hv]
      simp [List.find?]
  unfold Engine.handleHTTPRequest
  dsimp only
  rw [hl]
  dsimp only
  rw [Next_proceed]
  unfold proceedDbMigration
  cases hp : env.services.MigrationRequireConfirmation w
  · simp [ApiOutputSuccess, StatusOK]
  · cases hr : (env.services.ExecuteMigration w).2 <;>
      simp [hr, ApiOutputSuccess, ApiOutputError, StatusOK]

theorem proceed_db_migration_exempt_and_idempotent_witness :
    (demoRouter failingServices).handleHTTPRequest 4 ⟨"GET", "/proceed-db-migration", false⟩ true =
      some ⟨5, [Effect.ExecuteMigration,
          Effect.ApiOutputError
            (Error.defaultWrap (Error.raw "migration failed") "error executing migration")],
        ["gin.Logger", "gin.Recovery", "api.CreateApiService.func1"], true⟩ :=
  proceed_db_migration_exempt_and_idempotent (demoEnv failingServices) demoConfig
    (demoRouter failingServices) true 4 false (demoRouter_built failingServices) (by decide)

/-- C5: with no migration pending the gate returns the context as it got it (no output,
index and so the aborted flag untouched), and at the gate's position in any chain the
loop of `Next` goes on with the handler after it. -/
theorem gate_passes_when_clear (services : Services σ) (c : Context σ)
    (hclear : services.MigrationRequireConfirmation c.world = false) :
    migrationGate services c = c ∧
    ∀ (handlers : List (HandlerFunc σ)) (fuel i : Nat),
      handlers.get? i = some (migrationGateHandler services) → c.index = (i : Int) →
      nextLoop handlers (fuel + 1) c =
        nextLoop handlers fuel
          { c with invoked := c.invoked ++ ["api.CreateApiService.func2"],
                   index := c.index + 1 } := by
  have hg : ∀ c' : Context σ, c'.world = c.world → migrationGate services c' = c' := by
    intro c' hw
    unfold migrationGate
    rw [hw, hclear]
    rfl
  refine ⟨hg c rfl, ?_⟩
  intro handlers fuel i hget hi
  rw [nextLoop_leaf handlers fuel i c "api.CreateApiService.func2" (migrationGate services)
    hget hi]
  rw [hg (c.enter "api.CreateApiService.func2") rfl]
  rfl

theorem gate_passes_when_clear_witness :
    migrationGate demoServices ⟨2, [], ["gin.Logger", "gin.Recovery"], false⟩ =
      ⟨2, [], ["gin.Logger", "gin.Recovery"], false⟩ ∧
    nextLoop [Logger, Recovery, migrationGateHandler demoServices, (demoEnv demoServices).cors]
        (3 + 1) ⟨2, [], ["gin.Logger", "gin.Recovery"], false⟩ =
      nextLoop [Logger, Recovery, migrationGateHandler demoServices, (demoEnv demoServices).cors]
        3 ⟨2 + 1, [], ["gin.Logger", "gin.Recovery"] ++ ["api.CreateApiService.func2"], false⟩ :=
  ⟨(gate_passes_when_clear demoServices ⟨2, [], ["gin.Logger", "gin.Recovery"], false⟩ rfl).1,
   (gate_passes_when_clear demoServices ⟨2, [], ["gin.Logger", "gin.Recovery"], false⟩ rfl).2
     [Logger, Recovery, migrationGateHandler demoServices, (demoEnv demoServices).cors] 3 2
     rfl rfl⟩

/-- C7: when `CreateApiService` parses PORT to `n` and so reaches the listener,
`strings.TrimLeft(PORT, ":")` parses to the same `n`, `bootstrapRemotePlugins` computes
that port number, and it is the one it passes to `bridge.Bootstrap`. -/
theorem bootstrap_port_eq_listen_port (Bootstrap : Config → Int → Option Error) (v : Config)
    (n : Int) (h : CreateApiService.portNum v = .ok n) :
    strconv.Atoi v.PORT = .ok n ∧
    strconv.Atoi (strings.TrimLeft v.PORT ":") = .ok n ∧
    bootstrapRemotePlugins.portNum v = .ok n ∧
    bootstrapRemotePlugins Bootstrap v =
      .returned (match Bootstrap v n with
        | some err => [err]
        | none => []) := by
  have hA : strconv.Atoi v.PORT = .ok n := by
    unfold CreateApiService.portNum at h
    dsimp only at h
    cases hp : strconv.Atoi v.PORT with
    | error err => rw [hp] at h; cases h
    | ok m =>
      rw [hp] at h
      injection h with h
      rw [h]
  have hT : strings.TrimLeft v.PORT ":" = v.PORT := strings.TrimLeft_colon_of_Atoi v.PORT n hA
  have hB : bootstrapRemotePlugins.portNum v = .ok n := by
    unfold bootstrapRemotePlugins.portNum
    dsimp only
    rw [hT, hA]
  refine ⟨hA, by rw [hT]; exact hA, hB, ?_⟩
  unfold bootstrapRemotePlugins
  rw [hB]
  dsimp only
  cases Bootstrap v n <;> rfl

theorem bootstrap_port_eq_listen_port_witness :
    strconv.Atoi demoConfig.PORT = .ok 8080 ∧
    strconv.Atoi (strings.TrimLeft demoConfig.PORT ":") = .ok 8080 ∧
    bootstrapRemotePlugins.portNum demoConfig = .ok 8080 ∧
    bootstrapRemotePlugins (fun _ _ => some (Error.raw "no launcher")) demoConfig =
      .returned (match (fun _ _ => some (Error.raw "no launcher") : Config → Int → Option Error)
          demoConfig 8080 with
        | some err => [err]
        | none => []) :=
  bootstrap_port_eq_listen_port (fun _ _ => some (Error.raw "no launcher")) demoConfig 8080
    (by decide)

/-- C8, counterexample: with PORT = "abc", `bootstrapRemotePlugins` panics although
`bridge.Bootstrap` would not fail. -/
theorem bootstrap_panics_on_bad_port :
    bootstrapRemotePlugins (fun _ _ => none) ⟨"release", true, "abc"⟩ =
      .panicked (.portMustBeInt "abc" ⟨"Atoi", "abc", .ErrSyntax⟩) := by
  decide

/-- C8, as the code has it: when PORT without its leading colons is an int,
`bootstrapRemotePlugins` returns, and an error of `bridge.Bootstrap` is logged once and
nothing else happens; when it is not an int, `bootstrapRemotePlugins` panics with
"PORT [...] must be int". -/
theorem bootstrap_failure_logged_when_port_parses (Bootstrap : Config → Int → Option Error)
    (v : Config) :
    (∀ n, strconv.Atoi (strings.TrimLeft v.PORT ":") = .ok n →
      (∀ err, Bootstrap v n = some err → bootstrapRemotePlugins Bootstrap v = .returned [err]) ∧
      (Bootstrap v n = none → bootstrapRemotePlugins Bootstrap v = .returned [])) ∧
    (∀ e, strconv.Atoi (strings.TrimLeft v.PORT ":") = .error e →
      bootstrapRemotePlugins Bootstrap v =
        .panicked (.portMustBeInt (strings.TrimLeft v.PORT ":") e)) := by
  constructor
  · intro n hn
    have hB : bootstrapRemotePlugins.portNum v = .ok n := by
      unfold bootstrapRemotePlugins.portNum
      dsimp only
      rw [hn]
    constructor
    · intro err he
      unfold bootstrapRemotePlugins
      rw [hB]
      dsimp only
      rw [he]
    · intro he
      unfold bootstrapRemotePlugins
      rw [hB]
      dsimp only
      rw [he]
  · intro e he
    have hB : bootstrapRemotePlugins.portNum v =
        .error (.portMustBeInt (strings.TrimLeft v.PORT ":") e) := by
      unfold bootstrapRemotePlugins.portNum
      dsimp only
      rw [he]
    unfold bootstrapRemotePlugins
    rw [hB]

theorem bootstrap_failure_logged_when_port_parses_witness :
    bootstrapRemotePlugins (fun _ _ => some (Error.raw "no launcher")) ⟨"release", true, ":8080"⟩ =
      .returned [Error.raw "no launcher"] :=
  ((bootstrap_failure_logged_when_port_parses (fun _ _ => some (Error.raw "no launcher"))
    ⟨"release", true, ":8080"⟩).1 8080 (by decide)).1 (Error.raw "no launcher") rfl

/-- C10: for PORT = ":8080" `bootstrapRemotePlugins` computes port 8080 while
`CreateApiService` fails to parse and panics with "PORT [:8080] must be int"; and for every
PORT that starts with a colon `CreateApiService` ends in a panic, whatever the rest of the
configuration and the environment. -/
theorem leading_colon_port_parsers_disagree :
    bootstrapRemotePlugins.portNum ⟨"release", true, ":8080"⟩ = .ok 8080 ∧
    CreateApiService.portNum ⟨"release", true, ":8080"⟩ =
      .error (.portMustBeInt ":8080" ⟨"Atoi", ":8080", .ErrSyntax⟩) ∧
    ∀ (mode : String) (remote : Bool) (rest : List Char),
      CreateApiService.portNum ⟨mode, remote, ⟨':' :: rest⟩⟩ =
        .error (.portMustBeInt ⟨':' :: rest⟩ ⟨"Atoi", ⟨':' :: rest⟩, .ErrSyntax⟩) ∧
      ∀ (τ : Type) (env : Env τ),
        ∃ p, CreateApiService env ⟨mode, remote, ⟨':' :: rest⟩⟩ = .error p := by
  refine ⟨by decide, by decide, ?_⟩
  intro mode remote rest
  have hP : CreateApiService.portNum ⟨mode, remote, ⟨':' :: rest⟩⟩ =
      .error (.portMustBeInt ⟨':' :: rest⟩ ⟨"Atoi", ⟨':' :: rest⟩, .ErrSyntax⟩) := by
    unfold CreateApiService.portNum
    dsimp only
    rw [strconv.Atoi_colon]
  refine ⟨hP, ?_⟩
  intro τ env
  unfold CreateApiService
  cases CreateApiService.router env ⟨mode, remote, ⟨':' :: rest⟩⟩ with
  | none => exact ⟨_, rfl⟩
  | some router =>
    dsimp only
    rw [hP]
    exact ⟨_, rfl⟩

end api

namespace tasks
open time url

/-- The four entries every query has. -/
theorem Query_full_none (data : TapdTaskData) (cws : ApiCollectorStateManager)
    (req : RequestData) (h : data.TimeAfter = none) :
    CollectWorklogs.Query data false cws req =
      some [("workspace_id", [fmt.formatUint data.Options.WorkspaceId]),
            ("page", [fmt.formatInt req.Pager.Page]),
            ("limit", [fmt.formatInt req.Pager.Size]),
            ("order", ["created asc"])] := by
  simp [CollectWorklogs.Query, h, Values.Set]

theorem Query_full_some (data : TapdTaskData) (cws : ApiCollectorStateManager)
    (req : RequestData) (ta : Time) (z : Location)
    (h : data.TimeAfter = some ta) (hz : data.Options.CstZone = some z) :
    CollectWorklogs.Query data false cws req =
      some [("workspace_id", [fmt.formatUint data.Options.WorkspaceId]),
            ("page", [fmt.formatInt req.Pager.Page]),
            ("limit", [fmt.formatInt req.Pager.Size]),
            ("order", ["created asc"]),
            ("modified", [">" ++ (Time.mk ta.sec ta.nsec z).Format_2006_01_02])] := by
  simp [CollectWorklogs.Query, h, hz, Values.Set, Time.In]

theorem Query_incremental (data : TapdTaskData) (cws : ApiCollectorStateManager)
    (req : RequestData) (t : Time) (z : Location)
    (ht : cws.LatestState.LatestSuccessStart = some t) (hz : data.Options.CstZone = some z) :
    CollectWorklogs.Query data true cws req =
      some [("workspace_id", [fmt.formatUint data.Options.WorkspaceId]),
            ("page", [fmt.formatInt req.Pager.Page]),
            ("limit", [fmt.formatInt req.Pager.Size]),
            ("order", ["created asc"]),
            ("modified", [">" ++ (Time.mk t.sec t.nsec z).Format_2006_01_02])] := by
  cases hta : data.TimeAfter <;>
    simp [CollectWorklogs.Query, hta, ht, hz, Values.Set, Time.In]

theorem Query_incremental_some (data : TapdTaskData) (cws : ApiCollectorStateManager)
    (req : RequestData) (q : Values) (h : CollectWorklogs.Query data true cws req = some q) :
    ∃ t z, cws.LatestState.LatestSuccessStart = some t ∧ data.Options.CstZone = some z := by
  cases ht : cws.LatestState.LatestSuccessStart with
  | none =>
    cases hta : data.TimeAfter <;> cases hz : data.Options.CstZone <;>
      simp [CollectWorklogs.Query, hta, ht, hz, Time.In] at h
  | some t =>
    cases hz : data.Options.CstZone with
    | none =>
      cases hta : data.TimeAfter <;>
        simp [CollectWorklogs.Query, hta, ht, hz, Time.In] at h
    | some z => exact ⟨t, z, rfl, rfl⟩

theorem Query_full_returned (data : TapdTaskData) (cws : ApiCollectorStateManager)
    (req : RequestData) (q : Values) (h : CollectWorklogs.Query data false cws req = some q) :
    data.TimeAfter = none ∨ ∃ ta z, data.TimeAfter = some ta ∧ data.Options.CstZone = some z := by
  cases hta : data.TimeAfter with
  | none => exact Or.inl rfl
  | some ta =>
    cases hz : data.Options.CstZone with
    | none => simp [CollectWorklogs.Query, hta, hz, Time.In] at h
    | some z => exact Or.inr ⟨ta, z, rfl, rfl⟩

/-- C3: when the collector is incremental, a query the callback returns has exactly one
value for "modified": ">" and the date of `LatestSuccessStart` in `CstZone`. The query is
the same whatever `TimeAfter` is, and the same for a checkpoint that denotes the same
instant in another zone. The callback returns whenever checkpoint and zone are non-nil. -/
theorem query_incremental_lower_bound (data : TapdTaskData) (cws : ApiCollectorStateManager)
    (req : RequestData) :
    (∀ q, CollectWorklogs.Query data true cws req = some q →
      ∃ t z, cws.LatestState.LatestSuccessStart = some t ∧ data.Options.CstZone = some z ∧
        q.lookup "modified" = some [">" ++ (Time.mk t.sec t.nsec z).Format_2006_01_02] ∧
        (q.filter (fun kv => kv.1 == "modified")).length = 1 ∧
        (∀ timeAfter, CollectWorklogs.Query ⟨data.Options, timeAfter⟩ true cws req = some q) ∧
        (∀ l, CollectWorklogs.Query data true ⟨⟨some ⟨t.sec, t.nsec, l⟩⟩⟩ req = some q)) ∧
    (∀ t z, cws.LatestState.LatestSuccessStart = some t → data.Options.CstZone = some z →
      (CollectWorklogs.Query data true cws req).isSome = true) := by
  constructor
  · intro q hq
    obtain ⟨t, z, ht, hz⟩ := Query_incremental_some data cws req q hq
    rw [Query_incremental data cws req t z ht hz] at hq
    injection hq with hq
    subst hq
    refine ⟨t, z, ht, hz, ?_, ?_, ?_, ?_⟩
    · simp [Values.lookup, List.find?]
    · simp [List.filter]
    · intro timeAfter
      exact Query_incremental ⟨data.Options, timeAfter⟩ cws req t z ht hz
    · intro l
      exact Query_incremental data ⟨⟨some ⟨t.sec, t.nsec, l⟩⟩⟩ req ⟨t.sec, t.nsec, l⟩ z rfl hz
  · intro t z ht hz
    rw [Query_incremental data cws req t z ht hz]
    rfl

theorem query_incremental_lower_bound_witness :
    CollectWorklogs.Query demoData true demoCheckpoint demoRequest =
      some [("workspace_id", ["42"]), ("page", ["3"]), ("limit", ["100"]),
        ("order", ["created asc"]), ("modified", [">2024-03-10"])] ∧
    Values.lookup
      [("workspace_id", ["42"]), ("page", ["3"]), ("limit", ["100"]), ("order", ["created asc"]),
        ("modified", [">2024-03-10"])] "modified" = some [">2024-03-10"] := by
  refine ⟨by decide, ?_⟩
  obtain ⟨t, z, ht, hz, hm, -⟩ :=
    (query_incremental_lower_bound demoData demoCheckpoint demoRequest).1
      [("workspace_id", ["42"]), ("page", ["3"]), ("limit", ["100"]), ("order", ["created asc"]),
        ("modified", [">2024-03-10"])] (by decide)
  cases ht
  cases hz
  exact hm.trans (by decide)

/-- C4: on a full run the callback ignores the checkpoint. With `TimeAfter` nil it returns
the query without a "modified" key; with `TimeAfter` set (and a zone) the query has exactly
one value for "modified", ">" and the date of `TimeAfter` in `CstZone`. The result is the
same for every collector state. -/
theorem query_full_run_lower_bound (data : TapdTaskData) (cws : ApiCollectorStateManager)
    (req : RequestData) :
    (data.TimeAfter = none →
      ∃ q, CollectWorklogs.Query data false cws req = some q ∧ q.lookup "modified" = none ∧
        "modified" ∉ q.keys) ∧
    (∀ ta z, data.TimeAfter = some ta → data.Options.CstZone = some z →
      ∃ q, CollectWorklogs.Query data false cws req = some q ∧
        q.lookup "modified" = some [">" ++ (Time.mk ta.sec ta.nsec z).Format_2006_01_02] ∧
        (q.filter (fun kv => kv.1 == "modified")).length = 1) ∧
    (∀ q, CollectWorklogs.Query data false cws req = some q →
      data.TimeAfter = none ∨
        ∃ ta z, data.TimeAfter = some ta ∧ data.Options.CstZone = some z) ∧
    (∀ cws', CollectWorklogs.Query data false cws' req =
      CollectWorklogs.Query data false cws req) := by
  refine ⟨?_, ?_, ?_, ?_⟩
  · intro h
    refine ⟨_, Query_full_none data cws req h, ?_, ?_⟩
    · simp [Values.lookup, List.find?]
    · simp [Values.keys]
  · intro ta z h hz
    refine ⟨_, Query_full_some data cws req ta z h hz, ?_, ?_⟩
    · simp [Values.lookup, List.find?]
    · simp [List.filter]
  · intro q hq
    exact Query_full_returned data cws req q hq
  · intro cws'
    rfl

theorem query_full_run_lower_bound_witness :
    CollectWorklogs.Query demoData false noCheckpoint demoRequest =
      some [("workspace_id", ["42"]), ("page", ["3"]), ("limit", ["100"]),
        ("order", ["created asc"]), ("modified", [">2024-01-01"])] ∧
    Values.lookup
      [("workspace_id", ["42"]), ("page", ["3"]), ("limit", ["100"]), ("order", ["created asc"]),
        ("modified", [">2024-01-01"])] "modified" = some [">2024-01-01"] := by
  obtain ⟨q, hq, hm, -⟩ :=
    (query_full_run_lower_bound demoData noCheckpoint demoRequest).2.1
      ⟨1704067200, 0, utc⟩ cst rfl rfl
  have hq' : CollectWorklogs.Query demoData false noCheckpoint demoRequest =
      some [("workspace_id", ["42"]), ("page", ["3"]), ("limit", ["100"]),
        ("order", ["created asc"]), ("modified", [">2024-01-01"])] := by decide
  rw [hq'] at hq
  injection hq with hq
  subst hq
  exact ⟨hq', hm.trans (by decide)⟩

/-- C9: a query the callback returns has exactly one value for "workspace_id", "page",
"limit" and "order": the decimal workspace id, the pager's page and size unchanged, and
"created asc"; its keys are distinct and are these four and at most "modified". The
callback returns whenever the zone is non-nil and, if incremental, the checkpoint too. -/
theorem query_fixed_parameters (data : TapdTaskData) (incremental : Bool)
    (cws : ApiCollectorStateManager) (req : RequestData) :
    (∀ q, CollectWorklogs.Query data incremental cws req = some q →
      q.lookup "workspace_id" = some [fmt.formatUint data.Options.WorkspaceId] ∧
      q.lookup "page" = some [fmt.formatInt req.Pager.Page] ∧
      q.lookup "limit" = some [fmt.formatInt req.Pager.Size] ∧
      q.lookup "order" = some ["created asc"] ∧
      q.keys.Nodup ∧
      ∀ k ∈ q.keys, k ∈ ["workspace_id", "page", "limit", "order", "modified"]) ∧
    (data.Options.CstZone ≠ none →
      (incremental = true → cws.LatestState.LatestSuccessStart ≠ none) →
      (CollectWorklogs.Query data incremental cws req).isSome = true) := by
  constructor
  · intro q hq
    cases incremental with
    | true =>
      obtain ⟨t, z, ht, hz⟩ := Query_incremental_some data cws req q hq
      rw [Query_incremental data cws req t z ht hz] at hq
      injection hq with hq
      subst hq
      simp [Values.lookup, List.find?, Values.keys]
    | false =>
      rcases Query_full_returned data cws req q hq with h | ⟨ta, z, h, hz⟩
      · rw [Query_full_none data cws req h] at hq
        injection hq with hq
        subst hq
        simp [Values.lookup, List.find?, Values.keys]
      · rw [Query_full_some data cws req ta z h hz] at hq
        injection hq with hq
        subst hq
        simp [Values.lookup, List.find?, Values.keys]
  · intro hz hinc
    obtain ⟨z, hz⟩ := Option.ne_none_iff_exists'.mp hz
    cases incremental with
    | true =>
      obtain ⟨t, ht⟩ := Option.ne_none_iff_exists'.mp (hinc rfl)
      rw [Query_incremental data cws req t z ht hz]
      rfl
    | false =>
      cases hta : data.TimeAfter with
      | none => rw [Query_full_none data cws req hta]; rfl
      | some ta => rw [Query_full_some data cws req ta z hta hz]; rfl

theorem query_fixed_parameters_witness :
    Values.lookup
        [("workspace_id", ["42"]), ("page", ["3"]), ("limit", ["100"]),
          ("order", ["created asc"]), ("modified", [">2024-01-01"])] "page" = some ["3"] ∧
    (CollectWorklogs.Query demoData false noCheckpoint demoRequest).isSome = true :=
  ⟨((query_fixed_parameters demoData false noCheckpoint demoRequest).1
      [("workspace_id", ["42"]), ("page", ["3"]), ("limit", ["100"]),
        ("order", ["created asc"]), ("modified", [">2024-01-01"])] (by decide)).2.1.trans
      (by decide),
   (query_fixed_parameters demoData false noCheckpoint demoRequest).2
      (fun h => by cases h) (fun h => by cases h)⟩

variable {ω : Type}

/-- C6: `CollectWorklogs` returns the error of `NewStatefulApiCollector` without calling
`InitCollector` or `Execute`; else the error of `InitCollector` without calling `Execute`;
else exactly what `Execute` returns. If the two set-up steps leave a view `checkpoint` of
the state alone, a set-up failure leaves it as it was. -/
theorem collect_worklogs_setup_failure (helper : Helper ω) (taskCtx : ω) :
    (∀ s1 e,
      helper.NewStatefulApiCollector RAW_WORKLOG_TABLE (helper.taskData taskCtx).TimeAfter taskCtx
        = (s1, .error e) →
      (CollectWorklogs helper taskCtx).err = some e ∧
      (CollectWorklogs helper taskCtx).state = s1 ∧
      Call.InitCollector ∉ (CollectWorklogs helper taskCtx).calls ∧
      Call.Execute ∉ (CollectWorklogs helper taskCtx).calls) ∧
    (∀ s1 c s2 e,
      helper.NewStatefulApiCollector RAW_WORKLOG_TABLE (helper.taskData taskCtx).TimeAfter taskCtx
        = (s1, .ok c) →
      helper.InitCollector c
        ⟨helper.IsIncremental c s1, 100, "timesheets",
          CollectWorklogs.Query (helper.taskData taskCtx) (helper.IsIncremental c s1) c⟩ s1
        = (s2, some e) →
      (CollectWorklogs helper taskCtx).err = some e ∧
      (CollectWorklogs helper taskCtx).state = s2 ∧
      Call.Execute ∉ (CollectWorklogs helper taskCtx).calls) ∧
    (∀ s1 c s2,
      helper.NewStatefulApiCollector RAW_WORKLOG_TABLE (helper.taskData taskCtx).TimeAfter taskCtx
        = (s1, .ok c) →
      helper.InitCollector c
        ⟨helper.IsIncremental c s1, 100, "timesheets",
          CollectWorklogs.Query (helper.taskData taskCtx) (helper.IsIncremental c s1) c⟩ s1
        = (s2, none) →
      (CollectWorklogs helper taskCtx).err = (helper.Execute c s2).2 ∧
      (CollectWorklogs helper taskCtx).state = (helper.Execute c s2).1 ∧
      (CollectWorklogs helper taskCtx).calls.count Call.Execute = 1) ∧
    (∀ (κ : Type) (checkpoint : ω → κ),
      (∀ table ta s, checkpoint (helper.NewStatefulApiCollector table ta s).1 = checkpoint s) →
      (∀ c args s, checkpoint (helper.InitCollector c args s).1 = checkpoint s) →
      Call.Execute ∉ (CollectWorklogs helper taskCtx).calls →
      checkpoint (CollectWorklogs helper taskCtx).state = checkpoint taskCtx) := by
  refine ⟨?_, ?_, ?_, ?_⟩
  · intro s1 e h
    simp [CollectWorklogs, h]
  · intro s1 c s2 e h h2
    simp [CollectWorklogs, h, h2]
  · intro s1 c s2 h h2
    simp [CollectWorklogs, h, h2]
  · intro κ checkpoint hnew hinit hex
    have h1 := hnew RAW_WORKLOG_TABLE (helper.taskData taskCtx).TimeAfter taskCtx
    generalize hN : helper.NewStatefulApiCollector RAW_WORKLOG_TABLE
      (helper.taskData taskCtx).TimeAfter taskCtx = r at h1
    obtain ⟨s1, res⟩ := r
    cases res with
    | error e =>
      simp only [CollectWorklogs, hN]
      exact h1
    | ok c =>
      have h2 := hinit c ⟨helper.IsIncremental c s1, 100, "timesheets",
          CollectWorklogs.Query (helper.taskData taskCtx) (helper.IsIncremental c s1) c⟩ s1
      generalize hI : helper.InitCollector c ⟨helper.IsIncremental c s1, 100, "timesheets",
          CollectWorklogs.Query (helper.taskData taskCtx) (helper.IsIncremental c s1) c⟩ s1 = r2
        at h2
      obtain ⟨s2, res2⟩ := r2
      cases res2 with
      | some e =>
        simp only [CollectWorklogs, hN, hI]
        exact h2.trans h1
      | none =>
        simp [CollectWorklogs, hN, hI] at hex

theorem collect_worklogs_setup_failure_witness :
    (CollectWorklogs demoHelper ⟨some 1700000000, false⟩).err =
      some (Error.raw "failed to load JiraLatestCollectorMeta") ∧
    (CollectWorklogs demoHelper ⟨some 1700000000, false⟩).state = ⟨some 1700000000, false⟩ ∧
    Call.InitCollector ∉ (CollectWorklogs demoHelper ⟨some 1700000000, false⟩).calls ∧
    Call.Execute ∉ (CollectWorklogs demoHelper ⟨some 1700000000, false⟩).calls :=
  (collect_worklogs_setup_failure demoHelper ⟨some 1700000000, false⟩).1
    ⟨some 1700000000, false⟩ (Error.raw "failed to load JiraLatestCollectorMeta") rfl

end tasks

end Devlake
